import Mathlib

/-!
Shallow embedding of the dji-logbook backend (src-tauri/src/api.rs and
src-tauri/src/models.rs) and proofs about its key-resolution and
telemetry-projection behaviour.

Modelling conventions:
* Files are abstracted at the level of their parsed content; `FileRead`
  enumerates the outcomes of `Path::exists` + `fs::read_to_string` +
  JSON parsing that the Rust code distinguishes.
* JSON text is modelled by the inductive `Json` (the value level; textual
  formatting such as pretty-printing is not modelled).  serde_json's
  typed (de)serialization of `AppConfig` is modelled by
  `fromJsonAppConfig` / `toJsonAppConfig`.
* The process-global `static API_KEY: OnceLock<Option<String>>` is
  modelled by explicit state passing: a cache value of type
  `Option (Option String)` threaded through `getApiKey`.
* Rust `f64` arithmetic in the telemetry projection is modelled over `ℚ`.
-/

namespace DjiLogbook

/-- JSON values (the fragment needed for `config.json`): null, strings,
integers and objects as ordered field lists. -/
inductive Json where
  | null : Json
  | str : String → Json
  | num : Int → Json
  | obj : List (String × Json) → Json

/-- Field lookup in a JSON value: first binding of the key when the value
is an object, `none` otherwise. -/
def Json.lookup : Json → String → Option Json
  | Json.obj fields, k => (fields.find? (fun p => p.fst = k)).map (fun p => p.snd)
  | _, _ => none

/-- Structure `AppConfig` from api.rs: a single optional credential field. -/
structure AppConfig where
  dji_api_key : Option String
deriving DecidableEq

instance : Inhabited AppConfig := ⟨⟨none⟩⟩

/-- serde decoding of an `Option<String>` field: null ↦ None,
string ↦ Some, anything else is a type error. -/
def decodeOptString : Json → Option (Option String)
  | Json.null => some none
  | Json.str s => some (some s)
  | _ => none

/-- serde_json deserialization of `AppConfig`: the input must be an object;
unknown fields are ignored (serde default), a duplicated credential field is
an error, a missing credential field defaults to `None`. -/
def fromJsonAppConfig : Json → Option AppConfig
  | Json.obj fields =>
      match fields.filter (fun p => p.fst = "dji_api_key") with
      | [] => some ⟨none⟩
      | [p] => (decodeOptString p.snd).map (fun k => ⟨k⟩)
      | _ => none
  | _ => none

/-- serde_json serialization of `AppConfig`: an object with exactly the
credential field (`None` serializes as null). -/
def toJsonAppConfig (c : AppConfig) : Json :=
  Json.obj [("dji_api_key", match c.dji_api_key with
    | some s => Json.str s
    | none => Json.null)]

/-- Outcome of looking at `config.json` in one app data directory:
the file may be absent, unreadable (I/O error), readable but not JSON,
or readable and parsed to a `Json` value. -/
inductive FileRead where
  | absent : FileRead
  | ioError : FileRead
  | unreadableJson : FileRead
  | parsed : Json → FileRead

/-- External world state consulted by the resolver: the `DJI_API_KEY`
environment variable, the `config.json` content per app data directory,
and the lines of the local `.env` file (`none` = absent/unreadable). -/
structure World where
  env : Option String
  configFiles : String → FileRead
  dotenv : Option (List String)

/-- Structure `DjiApi` from api.rs: holds only the optional app data directory. -/
structure DjiApi where
  appDataDir : Option String

/-- Errors of api.rs that the modelled operations can produce. -/
inductive ApiError where
  | apiKeyNotConfigured : ApiError
  | apiResponse : String → ApiError
  | ioError : ApiError
deriving DecidableEq

/-- Step 1 of `get_api_key`: the environment variable, accepted when
non-empty and not the placeholder. -/
def envCandidate (w : World) : Option String :=
  match w.env with
  | some key =>
      if key ≠ "" ∧ key ≠ "your_api_key_here" then some key else none
  | none => none

/-- Step 2 of `get_api_key`: the credential field of `config.json` in the
instance's app data directory, accepted when the file exists, reads, parses
as `AppConfig`, and the field is present and non-empty (the placeholder is
NOT filtered here, faithfully to the source). -/
def configCandidate (api : DjiApi) (w : World) : Option String :=
  match api.appDataDir with
  | none => none
  | some dir =>
      match w.configFiles dir with
      | FileRead.parsed j =>
          match fromJsonAppConfig j with
          | some cfg =>
              match cfg.dji_api_key with
              | some key => if key ≠ "" then some key else none
              | none => none
          | none => none
      | _ => none

/-- Rust `str::trim` on a character list: whitespace removed from both
ends. -/
def rustTrimList (l : List Char) : List Char :=
  ((l.dropWhile Char.isWhitespace).reverse.dropWhile Char.isWhitespace).reverse

/-- Rust `str::trim_matches(c)` on a character list: all occurrences of `c`
removed from both ends. -/
def trimCharList (c : Char) (l : List Char) : List Char :=
  ((l.dropWhile (fun x => x = c)).reverse.dropWhile (fun x => x = c)).reverse

/-- One iteration of the `.env` loop: if the line starts with
`DJI_API_KEY=`, trim the remainder and strip surrounding quotes; accept it
when non-empty and not the placeholder. -/
def dotenvLineKey (line : String) : Option String :=
  let cs := line.toList
  if cs.take 12 = "DJI_API_KEY=".toList then
    let key := String.mk (trimCharList '\'' (trimCharList '"' (rustTrimList (cs.drop 12))))
    if key ≠ "" ∧ key ≠ "your_api_key_here" then some key else none
  else none

/-- The `.env` loop: first line yielding an accepted key wins; lines
without the key or with a rejected value are skipped and scanning
continues. -/
def findDotenvKey : List String → Option String
  | [] => none
  | line :: rest =>
      match dotenvLineKey line with
      | some k => some k
      | none => findDotenvKey rest

/-- Step 3 of `get_api_key`: the `.env` file, when readable. -/
def dotenvCandidate (w : World) : Option String :=
  match w.dotenv with
  | some lines => findDotenvKey lines
  | none => none

/-- Steps 2–3 of `get_api_key` chained (the continuation after the
environment variable is rejected). -/
def configThenDotenv (api : DjiApi) (w : World) : Option String :=
  match configCandidate api w with
  | some k => some k
  | none => dotenvCandidate w

/-- The closure passed to `OnceLock::get_or_init` in `get_api_key`:
environment variable, then config file, then `.env`, first accepted value
wins. -/
def computeApiKey (api : DjiApi) (w : World) : Option String :=
  match envCandidate w with
  | some k => some k
  | none => configThenDotenv api w

/-- Function `get_api_key` with the `OnceLock` cache made explicit: a filled cache
is returned as-is; an empty cache is filled with the freshly computed
value. Returns (result, cache after the call). -/
def getApiKey (api : DjiApi) (w : World) (cache : Option (Option String)) :
    Option String × Option (Option String) :=
  match cache with
  | some v => (v, some v)
  | none =>
      let v := computeApiKey api w
      (v, some v)

/-- The single `fs::write` a successful `save_api_key` performs: target
directory, file name, and written content (as a JSON value). -/
structure WriteOp where
  dir : String
  file : String
  content : Json

/-- The config-loading phase of `save_api_key`: an absent file and a file
that is not valid `AppConfig` JSON both give the default config
(`unwrap_or_default`); a read I/O error propagates. -/
def loadConfigForSave : FileRead → Except ApiError AppConfig
  | FileRead.absent => Except.ok ⟨none⟩
  | FileRead.ioError => Except.error ApiError.ioError
  | FileRead.unreadableJson => Except.ok ⟨none⟩
  | FileRead.parsed j => Except.ok ((fromJsonAppConfig j).getD ⟨none⟩)

/-- Function `save_api_key`: fails with `ApiKeyNotConfigured` when the instance has
no app data directory; otherwise loads (or defaults) the config, sets the
credential field, and writes `config.json` in the directory. The success
value is the performed write; an error performs no write. -/
def saveApiKey (api : DjiApi) (w : World) (apiKey : String) :
    Except ApiError WriteOp :=
  match api.appDataDir with
  | none => Except.error ApiError.apiKeyNotConfigured
  | some dir =>
      match loadConfigForSave (w.configFiles dir) with
      | Except.error e => Except.error e
      | Except.ok cfg =>
          Except.ok ⟨dir, "config.json", toJsonAppConfig { cfg with dji_api_key := some apiKey }⟩

/-- Applying a `WriteOp` to the world: the config file of the written
directory now parses to the written content. -/
def applyWrite (w : World) (op : WriteOp) : World :=
  { w with configFiles := fun d =>
      if d = op.dir then FileRead.parsed op.content else w.configFiles d }

/-- Structure `TelemetryRecord` from models.rs, restricted to the fields the
projection reads (f64 modelled as ℚ). -/
structure TelemetryRecord where
  timestamp_ms : Int
  latitude : Option ℚ
  longitude : Option ℚ
  altitude : Option ℚ
  speed : Option ℚ
  battery_percent : Option Int
  pitch : Option ℚ
  roll : Option ℚ
  yaw : Option ℚ
  satellites : Option Int
  flight_mode : Option String
deriving DecidableEq

instance : Inhabited TelemetryRecord :=
  ⟨⟨0, none, none, none, none, none, none, none, none, none, none⟩⟩

/-- Structure `TelemetryData` from models.rs: field-of-arrays projection for
charting. -/
structure TelemetryData where
  time : List ℚ
  altitude : List (Option ℚ)
  speed : List (Option ℚ)
  battery : List (Option Int)
  satellites : List (Option Int)
  pitch : List (Option ℚ)
  roll : List (Option ℚ)
  yaw : List (Option ℚ)
deriving DecidableEq

/-- Function `TelemetryData::from_records`: the base time is the first record's
timestamp (0 for an empty input, `unwrap_or(0)`), the time axis is
`(timestamp_ms - base) / 1000`, and each value series is the eponymous
field mapped over the records. -/
def TelemetryData.from_records (records : List TelemetryRecord) : TelemetryData :=
  let base_time : Int := (records.head?.map (fun r => r.timestamp_ms)).getD 0
  { time := records.map (fun r => ((r.timestamp_ms - base_time : Int) : ℚ) / 1000)
    altitude := records.map (fun r => r.altitude)
    speed := records.map (fun r => r.speed)
    battery := records.map (fun r => r.battery_percent)
    satellites := records.map (fun r => r.satellites)
    pitch := records.map (fun r => r.pitch)
    roll := records.map (fun r => r.roll)
    yaw := records.map (fun r => r.yaw) }

/-! ## Theorems about the key resolver -/

/-- C3: on a first resolution (empty cache), the environment variable wins
when it holds an accepted value; with the environment unset, an accepted
config value wins; with environment and config absent, an accepted `.env`
value is returned; with every source absent the result is `none`. -/
theorem c3_resolution_order (api : DjiApi) (w : World) :
    (∀ ve, envCandidate w = some ve → (getApiKey api w none).fst = some ve) ∧
    (w.env = none → ∀ vc, configCandidate api w = some vc →
      (getApiKey api w none).fst = some vc) ∧
    (envCandidate w = none → configCandidate api w = none →
      ∀ vd, dotenvCandidate w = some vd → (getApiKey api w none).fst = some vd) ∧
    (envCandidate w = none → configCandidate api w = none →
      dotenvCandidate w = none → (getApiKey api w none).fst = none) := by
  refine ⟨?_, ?_, ?_, ?_⟩
  · intro ve h
    simp [getApiKey, computeApiKey, h]
  · intro henv vc h
    simp [getApiKey, computeApiKey, envCandidate, henv, configThenDotenv, h]
  · intro h1 h2 vd h3
    simp [getApiKey, computeApiKey, h1, configThenDotenv, h2, h3]
  · intro h1 h2 h3
    simp [getApiKey, computeApiKey, h1, configThenDotenv, h2, h3]

/-- World with all three sources populated with distinct accepted
values. -/
def c3WorldA : World :=
  ⟨some "envkey",
   fun _ => FileRead.parsed (Json.obj [("dji_api_key", Json.str "cfgkey")]),
   some ["DJI_API_KEY=dotkey"]⟩

/-- World with only the config file and `.env` populated. -/
def c3WorldB : World :=
  ⟨none,
   fun _ => FileRead.parsed (Json.obj [("dji_api_key", Json.str "cfgkey")]),
   some ["DJI_API_KEY=dotkey"]⟩

/-- World with only `.env` populated. -/
def c3WorldD : World := ⟨none, fun _ => FileRead.absent, some ["DJI_API_KEY=dotkey"]⟩

/-- World with no source populated. -/
def c3WorldC : World := ⟨none, fun _ => FileRead.absent, none⟩

/-- Witness for C3: the four precedence scenarios at concrete worlds. -/
theorem c3_resolution_order_witness :
    (getApiKey ⟨some "appdata"⟩ c3WorldA none).fst = some "envkey" ∧
    (getApiKey ⟨some "appdata"⟩ c3WorldB none).fst = some "cfgkey" ∧
    (getApiKey ⟨some "appdata"⟩ c3WorldD none).fst = some "dotkey" ∧
    (getApiKey ⟨some "appdata"⟩ c3WorldC none).fst = none :=
  ⟨(c3_resolution_order ⟨some "appdata"⟩ c3WorldA).1 "envkey" (by decide),
   (c3_resolution_order ⟨some "appdata"⟩ c3WorldB).2.1 rfl "cfgkey" (by decide),
   (c3_resolution_order ⟨some "appdata"⟩ c3WorldD).2.2.1 (by decide) (by decide)
     "dotkey" (by decide),
   (c3_resolution_order ⟨some "appdata"⟩ c3WorldC).2.2.2 (by decide) (by decide) rfl⟩

/-- C4: the cache is written at most once — the first call fills it with
its own result, every later call (any instance, any world) returns that
result and leaves the cache unchanged, and a successful save applied to
the world after first resolution does not change what `get_api_key`
returns. -/
theorem c4_cached_once (api1 api2 : DjiApi) (w1 w2 : World) :
    (getApiKey api1 w1 none).snd = some (getApiKey api1 w1 none).fst ∧
    (∀ (api : DjiApi) (w : World),
      (getApiKey api w (getApiKey api1 w1 none).snd).fst =
        (getApiKey api1 w1 none).fst ∧
      (getApiKey api w (getApiKey api1 w1 none).snd).snd =
        (getApiKey api1 w1 none).snd) ∧
    (∀ key op, saveApiKey api2 w2 key = Except.ok op →
      (getApiKey api2 (applyWrite w2 op) (getApiKey api1 w1 none).snd).fst =
        (getApiKey api1 w1 none).fst) := by
  refine ⟨rfl, ?_, ?_⟩
  · intro api w
    exact ⟨rfl, rfl⟩
  · intro key op _
    rfl

/-- World whose environment variable resolves first to `firstkey`. -/
def c4World1 : World := ⟨some "firstkey", fun _ => FileRead.absent, none⟩

/-- World with no sources, used for the post-resolution save. -/
def c4World2 : World := ⟨none, fun _ => FileRead.absent, none⟩

/-- Witness for C4: a save of `savedkey` performed after `firstkey` was
resolved and cached does not change the returned key. -/
theorem c4_cached_once_witness :
    (getApiKey ⟨none⟩ c4World1 none).fst = some "firstkey" ∧
    saveApiKey ⟨some "d"⟩ c4World2 "savedkey" =
      Except.ok ⟨"d", "config.json", Json.obj [("dji_api_key", Json.str "savedkey")]⟩ ∧
    (getApiKey ⟨some "d"⟩
      (applyWrite c4World2 ⟨"d", "config.json", Json.obj [("dji_api_key", Json.str "savedkey")]⟩)
      (getApiKey ⟨none⟩ c4World1 none).snd).fst = some "firstkey" :=
  ⟨rfl, rfl,
   (c4_cached_once ⟨none⟩ ⟨some "d"⟩ c4World1 c4World2).2.2 "savedkey"
     ⟨"d", "config.json", Json.obj [("dji_api_key", Json.str "savedkey")]⟩ rfl⟩

/-- C8: the cache is shared process-wide across instances — a second
instance, with any app data directory and against any world, returns
exactly what the first resolution computed. -/
theorem c8_cache_process_global (d1 d2 : Option String) (w1 w2 : World) :
    (getApiKey ⟨d2⟩ w2 (getApiKey ⟨d1⟩ w1 none).snd).fst =
      (getApiKey ⟨d1⟩ w1 none).fst := rfl

/-- C6: with no app data directory every save fails with the
configuration error (and, the success value being the write, performs no
write); with a directory, a successful save writes `config.json` in that
directory. -/
theorem c6_save_storage_location (api : DjiApi) (w : World) (key : String) :
    (api.appDataDir = none →
      saveApiKey api w key = Except.error ApiError.apiKeyNotConfigured) ∧
    (∀ dir op, api.appDataDir = some dir → saveApiKey api w key = Except.ok op →
      op.dir = dir ∧ op.file = "config.json") := by
  refine ⟨?_, ?_⟩
  · intro h
    simp [saveApiKey, h]
  · intro dir op hdir hok
    rcases hcfg : loadConfigForSave (w.configFiles dir) with e | cfg <;>
      simp [saveApiKey, hdir, hcfg] at hok
    rw [← hok]
    exact ⟨rfl, rfl⟩

/-- Witness for C6: a save without a directory fails with the
configuration error; one with directory `d` writes `config.json` in
`d`. -/
theorem c6_save_storage_location_witness :
    saveApiKey ⟨none⟩ c4World2 "k" = Except.error ApiError.apiKeyNotConfigured ∧
    ((⟨"d", "config.json",
        Json.obj [("dji_api_key", Json.str "k")]⟩ : WriteOp).dir = "d" ∧
     (⟨"d", "config.json",
        Json.obj [("dji_api_key", Json.str "k")]⟩ : WriteOp).file = "config.json") :=
  ⟨(c6_save_storage_location ⟨none⟩ c4World2 "k").1 rfl,
   (c6_save_storage_location ⟨some "d"⟩ c4World2 "k").2 "d"
     ⟨"d", "config.json", Json.obj [("dji_api_key", Json.str "k")]⟩ rfl rfl⟩

/-- C9: an existing `config.json` that is not valid JSON is not an error
for `save_api_key`: it proceeds with the default config, so the rewritten
file holds only the new credential field. -/
theorem c9_unparseable_config_discarded (api : DjiApi) (w : World)
    (key dir : String)
    (hdir : api.appDataDir = some dir)
    (hfile : w.configFiles dir = FileRead.unreadableJson) :
    saveApiKey api w key =
      Except.ok ⟨dir, "config.json", Json.obj [("dji_api_key", Json.str key)]⟩ := by
  simp [saveApiKey, hdir, hfile, loadConfigForSave, toJsonAppConfig]

/-- World whose config file in directory `d` exists but is not JSON. -/
def c9World : World := ⟨none, fun _ => FileRead.unreadableJson, none⟩

/-- Witness for C9. -/
theorem c9_unparseable_config_discarded_witness :
    (⟨some "d"⟩ : DjiApi).appDataDir = some "d" ∧
    c9World.configFiles "d" = FileRead.unreadableJson ∧
    saveApiKey ⟨some "d"⟩ c9World "newkey" =
      Except.ok ⟨"d", "config.json", Json.obj [("dji_api_key", Json.str "newkey")]⟩ :=
  ⟨rfl, rfl, c9_unparseable_config_discarded ⟨some "d"⟩ c9World "newkey" "d" rfl rfl⟩

/-- C1 (amended): for any existing parseable `config.json`, a successful
save rewrites the file to an object holding exactly the credential field
with the new key — fields other than the credential field are discarded,
because the file is deserialized into the single-field `AppConfig` before
rewriting. -/
theorem c1_save_discards_unknown_fields (api : DjiApi) (w : World)
    (key dir : String) (j : Json)
    (hdir : api.appDataDir = some dir)
    (hfile : w.configFiles dir = FileRead.parsed j) :
    saveApiKey api w key =
      Except.ok ⟨dir, "config.json", Json.obj [("dji_api_key", Json.str key)]⟩ := by
  simp [saveApiKey, hdir, hfile, loadConfigForSave, toJsonAppConfig]

/-- World whose config file in `appdata` is an object with an unrelated
field `other` next to the credential field. -/
def c1World : World :=
  ⟨none,
   fun d => if d = "appdata"
     then FileRead.parsed
       (Json.obj [("other", Json.str "x"), ("dji_api_key", Json.str "old")])
     else FileRead.absent,
   none⟩

/-- Counterexample to C1 as stated: the original object carries the field
`other`, and the object written by `save_api_key` no longer contains it —
the unrelated field is not preserved. -/
theorem c1_counterexample :
    saveApiKey ⟨some "appdata"⟩ c1World "newkey" =
      Except.ok ⟨"appdata", "config.json",
        Json.obj [("dji_api_key", Json.str "newkey")]⟩ ∧
    (Json.obj [("other", Json.str "x"),
      ("dji_api_key", Json.str "old")]).lookup "other" = some (Json.str "x") ∧
    (Json.obj [("dji_api_key", Json.str "newkey")]).lookup "other" = none :=
  ⟨rfl, rfl, rfl⟩

/-- Witness for the amended C1 at `c1World`. -/
theorem c1_save_discards_unknown_fields_witness :
    (⟨some "appdata"⟩ : DjiApi).appDataDir = some "appdata" ∧
    c1World.configFiles "appdata" = FileRead.parsed
      (Json.obj [("other", Json.str "x"), ("dji_api_key", Json.str "old")]) ∧
    saveApiKey ⟨some "appdata"⟩ c1World "newkey" =
      Except.ok ⟨"appdata", "config.json",
        Json.obj [("dji_api_key", Json.str "newkey")]⟩ :=
  ⟨rfl, rfl,
   c1_save_discards_unknown_fields ⟨some "appdata"⟩ c1World "newkey" "appdata"
     (Json.obj [("other", Json.str "x"), ("dji_api_key", Json.str "old")]) rfl rfl⟩

/-- C2 (amended): the environment and `.env` sources treat both the empty
string and the placeholder as absent; the config-file source treats only
the empty string as absent — a placeholder stored in `config.json` is
returned as the key. -/
theorem c2_placeholder_handling (api : DjiApi) (w : World) :
    (∀ k, w.env = some k → (k = "" ∨ k = "your_api_key_here") →
      computeApiKey api w = configThenDotenv api w) ∧
    (∀ dir j, api.appDataDir = some dir → w.configFiles dir = FileRead.parsed j →
      fromJsonAppConfig j = some ⟨some ""⟩ →
      configCandidate api w = none ∧
      configThenDotenv api w = dotenvCandidate w) ∧
    (∀ dir j, api.appDataDir = some dir → w.configFiles dir = FileRead.parsed j →
      fromJsonAppConfig j = some ⟨some "your_api_key_here"⟩ →
      configCandidate api w = some "your_api_key_here") ∧
    (∀ v rest, (v = "" ∨ v = "your_api_key_here") →
      findDotenvKey (("DJI_API_KEY=" ++ v) :: rest) = findDotenvKey rest) := by
  refine ⟨?_, ?_, ?_, ?_⟩
  · intro k henv hk
    have h : envCandidate w = none := by
      rcases hk with rfl | rfl <;> simp [envCandidate, henv]
    rw [computeApiKey, h]
  · intro dir j hdir hfile hjson
    have h : configCandidate api w = none := by
      simp [configCandidate, hdir, hfile, hjson]
    exact ⟨h, by rw [configThenDotenv, h]⟩
  · intro dir j hdir hfile hjson
    simp [configCandidate, hdir, hfile, hjson]
  · intro v rest hv
    have h : dotenvLineKey ("DJI_API_KEY=" ++ v) = none := by
      rcases hv with rfl | rfl <;> decide
    rw [findDotenvKey, h]

/-- World where the config file holds the placeholder while `.env` holds a
real key. -/
def c2World : World :=
  ⟨none,
   fun d => if d = "appdata"
     then FileRead.parsed (Json.obj [("dji_api_key", Json.str "your_api_key_here")])
     else FileRead.absent,
   some ["DJI_API_KEY=realkey"]⟩

/-- Counterexample to C2 as stated: with the placeholder in `config.json`
and a real key in `.env`, first resolution returns the placeholder instead
of falling through to the `.env` value. -/
theorem c2_counterexample :
    (getApiKey ⟨some "appdata"⟩ c2World none).fst = some "your_api_key_here" ∧
    dotenvCandidate c2World = some "realkey" :=
  ⟨rfl, rfl⟩

/-- Witness for the amended C2: each of the four per-source behaviours at
a concrete input. -/
theorem c2_placeholder_handling_witness :
    computeApiKey ⟨some "appdata"⟩ ⟨some "", c2World.configFiles, c2World.dotenv⟩ =
      configThenDotenv ⟨some "appdata"⟩ ⟨some "", c2World.configFiles, c2World.dotenv⟩ ∧
    (configCandidate ⟨some "appdata"⟩
        ⟨none, fun _ => FileRead.parsed (Json.obj [("dji_api_key", Json.str "")]), none⟩ = none ∧
      configThenDotenv ⟨some "appdata"⟩
        ⟨none, fun _ => FileRead.parsed (Json.obj [("dji_api_key", Json.str "")]), none⟩ =
      dotenvCandidate
        ⟨none, fun _ => FileRead.parsed (Json.obj [("dji_api_key", Json.str "")]), none⟩) ∧
    configCandidate ⟨some "appdata"⟩ c2World = some "your_api_key_here" ∧
    findDotenvKey (("DJI_API_KEY=" ++ "your_api_key_here") :: ["DJI_API_KEY=realkey"]) =
      findDotenvKey ["DJI_API_KEY=realkey"] :=
  ⟨(c2_placeholder_handling ⟨some "appdata"⟩ _).1 "" rfl (Or.inl rfl),
   (c2_placeholder_handling ⟨some "appdata"⟩
      ⟨none, fun _ => FileRead.parsed (Json.obj [("dji_api_key", Json.str "")]), none⟩).2.1
     "appdata" (Json.obj [("dji_api_key", Json.str "")]) rfl rfl rfl,
   (c2_placeholder_handling ⟨some "appdata"⟩ c2World).2.2.1 "appdata"
     (Json.obj [("dji_api_key", Json.str "your_api_key_here")]) rfl rfl rfl,
   (c2_placeholder_handling ⟨some "appdata"⟩ c2World).2.2.2 "your_api_key_here"
     ["DJI_API_KEY=realkey"] (Or.inr rfl)⟩

/-! ## Theorems about the telemetry projection -/

/-- C5: for a non-empty record list with non-decreasing timestamps, the
time axis produced by `TelemetryData::from_records` starts at 0, its i-th
entry is `(t_i - t_0) / 1000`, and it is non-decreasing. -/
theorem c5_time_axis (records : List TelemetryRecord) (hne : records ≠ [])
    (hmono : records.Pairwise (fun a b => a.timestamp_ms ≤ b.timestamp_ms)) :
    (TelemetryData.from_records records).time.head? = some 0 ∧
    (∀ i, i < records.length →
      (TelemetryData.from_records records).time.getD i 0 =
        (((records.getD i default).timestamp_ms -
          (records.getD 0 default).timestamp_ms : Int) : ℚ) / 1000) ∧
    (TelemetryData.from_records records).time.Pairwise (fun a b => a ≤ b) := by
  obtain ⟨r, rs, rfl⟩ := List.exists_cons_of_ne_nil hne
  refine ⟨?_, ?_, ?_⟩
  · simp [TelemetryData.from_records]
  · intro i hi
    simp only [TelemetryData.from_records, List.head?_cons, Option.map_some,
      Option.getD_some, List.getD_eq_getElem?_getD, List.getElem?_map]
    rw [List.getElem?_eq_getElem hi]
    simp
  · simp only [TelemetryData.from_records, List.pairwise_map]
    refine hmono.imp ?_
    intro a b h
    have h2 : ((a.timestamp_ms - r.timestamp_ms : Int) : ℚ) ≤
        ((b.timestamp_ms - r.timestamp_ms : Int) : ℚ) := by
      exact_mod_cast sub_le_sub_right h _
    simpa using div_le_div_of_nonneg_right h2 (by norm_num : (0 : ℚ) ≤ 1000)

/-- Concrete input for the C5 witness: three records at 1000 ms, 2500 ms
and 4000 ms. -/
def c5Records : List TelemetryRecord :=
  [⟨1000, none, none, none, none, none, none, none, none, none, none⟩,
   ⟨2500, none, none, none, none, none, none, none, none, none, none⟩,
   ⟨4000, none, none, none, none, none, none, none, none, none, none⟩]

/-- Witness for C5 at `c5Records`. -/
theorem c5_time_axis_witness :
    c5Records ≠ [] ∧
    c5Records.Pairwise (fun a b => a.timestamp_ms ≤ b.timestamp_ms) ∧
    (TelemetryData.from_records c5Records).time.head? = some 0 ∧
    (TelemetryData.from_records c5Records).time.getD 2 0 =
      ((3000 : Int) : ℚ) / 1000 ∧
    (TelemetryData.from_records c5Records).time.Pairwise (fun a b => a ≤ b) :=
  ⟨by decide, by decide,
   (c5_time_axis c5Records (by decide) (by decide)).1,
   (c5_time_axis c5Records (by decide) (by decide)).2.1 2 (by decide),
   (c5_time_axis c5Records (by decide) (by decide)).2.2⟩

/-- C7: every one of the eight arrays of `TelemetryData::from_records` has
the length of the input, and index i of each array is determined by the
corresponding field of the i-th input record (for `time`, the timestamp
relative to the first record, in seconds). -/
theorem c7_arrays_aligned (records : List TelemetryRecord) :
    ((TelemetryData.from_records records).time.length = records.length ∧
     (TelemetryData.from_records records).altitude.length = records.length ∧
     (TelemetryData.from_records records).speed.length = records.length ∧
     (TelemetryData.from_records records).battery.length = records.length ∧
     (TelemetryData.from_records records).satellites.length = records.length ∧
     (TelemetryData.from_records records).pitch.length = records.length ∧
     (TelemetryData.from_records records).roll.length = records.length ∧
     (TelemetryData.from_records records).yaw.length = records.length) ∧
    ∀ i : ℕ,
      (TelemetryData.from_records records).altitude[i]? =
        (records[i]?).map (fun r => r.altitude) ∧
      (TelemetryData.from_records records).speed[i]? =
        (records[i]?).map (fun r => r.speed) ∧
      (TelemetryData.from_records records).battery[i]? =
        (records[i]?).map (fun r => r.battery_percent) ∧
      (TelemetryData.from_records records).satellites[i]? =
        (records[i]?).map (fun r => r.satellites) ∧
      (TelemetryData.from_records records).pitch[i]? =
        (records[i]?).map (fun r => r.pitch) ∧
      (TelemetryData.from_records records).roll[i]? =
        (records[i]?).map (fun r => r.roll) ∧
      (TelemetryData.from_records records).yaw[i]? =
        (records[i]?).map (fun r => r.yaw) ∧
      (TelemetryData.from_records records).time[i]? =
        (records[i]?).map (fun r =>
          ((r.timestamp_ms -
            ((records.head?.map (fun s => s.timestamp_ms)).getD 0) : Int) : ℚ) / 1000) := by
  refine ⟨?_, ?_⟩
  · simp [TelemetryData.from_records]
  · intro i
    simp [TelemetryData.from_records, List.getElem?_map]

/-- C10: on the empty record list, `TelemetryData::from_records` returns
the projection whose eight arrays are all empty. -/
theorem c10_empty_input :
    TelemetryData.from_records [] = ⟨[], [], [], [], [], [], [], []⟩ := rfl

end DjiLogbook
